import Mathlib

/-!
Verification development for the Assignment Lifecycle Orchestrator
(`Backend/services/worker_assignment_service.go`).

The service mediates between a worker and a booking: it validates ownership
and state preconditions, mutates the `WorkerAssignment` and `Booking`
aggregates, persists them through repositories, and then dispatches
best-effort side effects (chat room, call masking, location tracking,
worker statistics, notifications).

The embedding below models the persistence layer as an explicit store of
association lists (the repositories' tables), repository/side-effect
failures as an oracle of boolean flags, and each service operation as a
function from the store, the oracle, the current time and the request
arguments to a result carrying the Go return value, the resulting store,
and the list of side-effect invocations that were dispatched.
-/

set_option maxHeartbeats 1000000

namespace TreesIndia

/-- Assignment status enum (`models.AssignmentStatus*` constants). -/
inductive AssignmentStatus
  | assigned
  | accepted
  | rejected
  | inProgress
  | completed
deriving DecidableEq, Repr

/-- Booking status enum (`models.BookingStatus*` constants). -/
inductive BookingStatus
  | pending
  | confirmed
  | inProgress
  | completed
  | cancelled
deriving DecidableEq, Repr

/-- String rendering used when the response copies a booking status
(`string(assignment.Booking.Status)`). -/
def bookingStatusString : BookingStatus → String
  | BookingStatus.pending => "pending"
  | BookingStatus.confirmed => "confirmed"
  | BookingStatus.inProgress => "in_progress"
  | BookingStatus.completed => "completed"
  | BookingStatus.cancelled => "cancelled"

/-- The embedded `gorm.Model` header shared by persisted records. -/
structure GormModel where
  id : Nat
  createdAt : Nat
  updatedAt : Nat
deriving DecidableEq, Repr

/-- `models.User` with the fields the worker-assignment service reads.
The phone number is the privacy-sensitive field; the service must never
copy it into a worker-facing response. -/
structure UserModel where
  id : Nat
  name : String
  email : Option String
  phone : String
  userType : String
  avatar : Option String
  gender : Option String
  isActive : Bool
  lastLoginAt : Option Nat
  roleApplicationStatus : String
  applicationDate : Option Nat
  approvalDate : Option Nat
  walletBalance : ℚ
  subscriptionID : Option Nat
  hasActiveSubscription : Bool
  subscriptionExpiryDate : Option Nat
deriving DecidableEq, Repr

/-- `models.Service`: the booked service, carrying an optional list price. -/
structure ServiceModel where
  model : GormModel
  name : String
  price : Option ℚ
deriving DecidableEq, Repr

/-- `models.Booking` with the fields the service reads or writes, with the
preloaded `User` and `Service` relations. Times are seconds since epoch. -/
structure BookingModel where
  model : GormModel
  bookingReference : String
  userID : Nat
  serviceID : Nat
  status : BookingStatus
  paymentStatus : String
  bookingType : String
  completionType : Option String
  scheduledDate : Option Nat
  scheduledTime : Option String
  scheduledEndTime : Option Nat
  actualStartTime : Option Nat
  actualEndTime : Option Nat
  actualDurationMinutes : Option Nat
  address : String
  description : String
  contactPerson : String
  contactPhone : String
  specialInstructions : String
  holdExpiresAt : Option Nat
  quoteAmount : Option ℚ
  quoteNotes : String
  quoteProvidedBy : Option Nat
  quoteProvidedAt : Option Nat
  quoteAcceptedAt : Option Nat
  quoteExpiresAt : Option Nat
  user : UserModel
  service : ServiceModel
deriving DecidableEq, Repr

/-- `models.WorkerAssignment` with its preloaded relations. -/
structure WorkerAssignment where
  model : GormModel
  bookingID : Nat
  workerID : Nat
  assignedBy : Nat
  status : AssignmentStatus
  assignedAt : Nat
  acceptedAt : Option Nat
  rejectedAt : Option Nat
  startedAt : Option Nat
  completedAt : Option Nat
  assignmentNotes : String
  acceptanceNotes : String
  rejectionNotes : String
  rejectionReason : String
  booking : BookingModel
  worker : UserModel
  assignedByUser : UserModel
deriving DecidableEq, Repr

/-- The worker entity returned by `workerRepo.GetByUserID`; its `ID` (not the
user id) keys the statistics increment. -/
structure WorkerRec where
  id : Nat
  userID : Nat
deriving DecidableEq, Repr

/-- Per-worker statistics row touched by `IncrementCompletedJob`. -/
structure WorkerStats where
  completedJobs : Nat
  totalEarnings : ℚ
deriving DecidableEq, Repr

/-- `models.Pagination` as rebuilt by `GetWorkerAssignments`. -/
structure Pagination where
  page : Nat
  limit : Nat
  total : Nat
  totalPages : Nat
deriving DecidableEq, Repr

/-- Association-list lookup, the embedding of `GetByID`-style repository
reads (first match on the key wins). -/
def findAssoc {α : Type} (k : Nat) : List (Nat × α) → Option α
  | [] => none
  | (k2, v) :: rest => if k = k2 then some v else findAssoc k rest

/-- Association-list update, the embedding of `Update` /
`IncrementCompletedJob`-style repository writes: replace the first binding
of the key, or append one. -/
def setAssoc {α : Type} (k : Nat) (v : α) : List (Nat × α) → List (Nat × α)
  | [] => [(k, v)]
  | (k2, v2) :: rest =>
    if k = k2 then (k, v) :: rest else (k2, v2) :: setAssoc k v rest

/-- The persistence layer: the four tables the service touches. -/
structure Store where
  assignments : List (Nat × WorkerAssignment)
  bookings : List (Nat × BookingModel)
  workers : List (Nat × WorkerRec)
  stats : List (Nat × WorkerStats)
deriving DecidableEq, Repr

/-- Failure oracle: which repository writes and side-effect ports fail
during one operation, and whether the location-tracking service was
injected (`was.locationTrackingService != nil`). -/
structure Oracle where
  assignmentUpdateFails : Bool
  bookingUpdateFails : Bool
  chatCreateFails : Bool
  chatCloseFails : Bool
  trackingStartFails : Bool
  trackingStopFails : Bool
  statsIncrementFails : Bool
  locationEnabled : Bool
deriving DecidableEq, Repr

/-- Error kinds of the service layer. `notFound` is the Go error string
"assignment not found", `unauthorized` is "unauthorized access to
assignment", `invalidState` the "cannot be ... in current status" family,
and `persistence` the "failed to ..." family. The constructors carry no
payload: an error reveals its kind and nothing else. -/
inductive SvcError
  | notFound
  | unauthorized
  | invalidState
  | persistence
deriving DecidableEq, Repr

/-- A dispatched side-effect invocation; the boolean records whether the
port call succeeded (its failure is only ever logged). -/
inductive SideEffect
  | chatRoomCreate (bookingID : Nat) (ok : Bool)
  | chatRoomClose (bookingID : Nat) (reason : String) (ok : Bool)
  | callMaskingEnable (bookingID : Nat)
  | callMaskingDisable (bookingID : Nat)
  | locationStart (workerID : Nat) (assignmentID : Nat) (ok : Bool)
  | locationStop (workerID : Nat) (assignmentID : Nat) (ok : Bool)
  | statsIncrement (workerID : Nat) (earnings : ℚ) (ok : Bool)
  | notifyUserWorkerAssigned (assignmentID : Nat)
  | notifyAssignmentAccepted (assignmentID : Nat)
  | notifyAssignmentRejectedSvc (assignmentID : Nat)
  | notifyAssignmentRejected (assignmentID : Nat)
  | notifyWorkerStarted (bookingID : Nat)
  | notifyWorkerCompleted (bookingID : Nat)
deriving DecidableEq, Repr

/-- Result of one mutation operation: the Go return value, the store after
all persisted writes, and the side-effect invocations dispatched. -/
structure OpResult where
  ret : Except SvcError WorkerAssignment
  store : Store
  effects : List SideEffect

/-- The chat-room close reason used by `CompleteAssignment`. -/
def serviceCompletedReason : String := "Service completed"

/-- `AcceptAssignment(assignmentID, workerID, notes)`: load, check
ownership, check `status == assigned`, persist the assignment mutation,
then load and persist the booking mutation, then dispatch side effects. -/
def AcceptAssignment (st : Store) (orc : Oracle) (now : Nat)
    (assignmentID workerID : Nat) (notes : String) : OpResult :=
  match findAssoc assignmentID st.assignments with
  | none => ⟨Except.error SvcError.notFound, st, []⟩
  | some assignment =>
    if assignment.workerID = workerID then
      if assignment.status = AssignmentStatus.assigned then
        let updated := { assignment with
          status := AssignmentStatus.accepted
          acceptedAt := some now
          acceptanceNotes := notes }
        if orc.assignmentUpdateFails then
          ⟨Except.error SvcError.persistence, st, []⟩
        else
          let st1 := { st with
            assignments := setAssoc assignmentID updated st.assignments }
          match findAssoc assignment.bookingID st1.bookings with
          | none => ⟨Except.error SvcError.persistence, st1, []⟩
          | some booking =>
            let booking1 := { booking with status := BookingStatus.confirmed }
            if orc.bookingUpdateFails then
              ⟨Except.error SvcError.persistence, st1, []⟩
            else
              let st2 := { st1 with
                bookings := setAssoc assignment.bookingID booking1 st1.bookings }
              ⟨Except.ok updated, st2,
                [SideEffect.chatRoomCreate assignment.bookingID (!orc.chatCreateFails),
                 SideEffect.callMaskingEnable assignment.bookingID,
                 SideEffect.notifyUserWorkerAssigned assignmentID,
                 SideEffect.notifyAssignmentAccepted assignmentID]⟩
      else ⟨Except.error SvcError.invalidState, st, []⟩
    else ⟨Except.error SvcError.unauthorized, st, []⟩

/-- `RejectAssignment(assignmentID, workerID, reason, notes)`. -/
def RejectAssignment (st : Store) (orc : Oracle) (now : Nat)
    (assignmentID workerID : Nat) (reason notes : String) : OpResult :=
  match findAssoc assignmentID st.assignments with
  | none => ⟨Except.error SvcError.notFound, st, []⟩
  | some assignment =>
    if assignment.workerID = workerID then
      if assignment.status = AssignmentStatus.assigned then
        let updated := { assignment with
          status := AssignmentStatus.rejected
          rejectedAt := some now
          rejectionReason := reason
          rejectionNotes := notes }
        if orc.assignmentUpdateFails then
          ⟨Except.error SvcError.persistence, st, []⟩
        else
          let st1 := { st with
            assignments := setAssoc assignmentID updated st.assignments }
          match findAssoc assignment.bookingID st1.bookings with
          | none => ⟨Except.error SvcError.persistence, st1, []⟩
          | some booking =>
            let booking1 := { booking with status := BookingStatus.confirmed }
            if orc.bookingUpdateFails then
              ⟨Except.error SvcError.persistence, st1, []⟩
            else
              let st2 := { st1 with
                bookings := setAssoc assignment.bookingID booking1 st1.bookings }
              ⟨Except.ok updated, st2,
                [SideEffect.callMaskingDisable assignment.bookingID,
                 SideEffect.notifyAssignmentRejectedSvc assignmentID,
                 SideEffect.notifyAssignmentRejected assignmentID]⟩
      else ⟨Except.error SvcError.invalidState, st, []⟩
    else ⟨Except.error SvcError.unauthorized, st, []⟩

/-- `StartAssignment(assignmentID, workerID, notes)`; the `notes` argument
is accepted but unused by the source. -/
def StartAssignment (st : Store) (orc : Oracle) (now : Nat)
    (assignmentID workerID : Nat) (_notes : String) : OpResult :=
  match findAssoc assignmentID st.assignments with
  | none => ⟨Except.error SvcError.notFound, st, []⟩
  | some assignment =>
    if assignment.workerID = workerID then
      if assignment.status = AssignmentStatus.accepted then
        let updated := { assignment with
          status := AssignmentStatus.inProgress
          startedAt := some now }
        if orc.assignmentUpdateFails then
          ⟨Except.error SvcError.persistence, st, []⟩
        else
          let st1 := { st with
            assignments := setAssoc assignmentID updated st.assignments }
          match findAssoc assignment.bookingID st1.bookings with
          | none => ⟨Except.error SvcError.persistence, st1, []⟩
          | some booking =>
            let booking1 := { booking with
              status := BookingStatus.inProgress
              actualStartTime := some now }
            if orc.bookingUpdateFails then
              ⟨Except.error SvcError.persistence, st1, []⟩
            else
              let st2 := { st1 with
                bookings := setAssoc assignment.bookingID booking1 st1.bookings }
              ⟨Except.ok updated, st2,
                (if orc.locationEnabled then
                  [SideEffect.locationStart workerID assignmentID (!orc.trackingStartFails)]
                 else []) ++
                [SideEffect.notifyWorkerStarted assignment.bookingID]⟩
      else ⟨Except.error SvcError.invalidState, st, []⟩
    else ⟨Except.error SvcError.unauthorized, st, []⟩

/-- Earnings selection inside `CompleteAssignment`: the booking's quote
amount when present, otherwise the service's list price, otherwise zero. -/
def completionEarnings (booking : BookingModel) : ℚ :=
  match booking.quoteAmount with
  | some q => q
  | none =>
    match booking.service.price with
    | some p => p
    | none => 0

/-- `CompleteAssignment(assignmentID, workerID, notes, materialsUsed,
photos)`: after the two persisted writes, disable call masking, best-effort
increment the worker statistics, close the chat room, stop tracking, and
notify. `notes` is accepted but unused; `materialsUsed` and `photos` are
only logged by the source. -/
def CompleteAssignment (st : Store) (orc : Oracle) (now : Nat)
    (assignmentID workerID : Nat) (_notes : String)
    (_materialsUsed _photos : List String) : OpResult :=
  match findAssoc assignmentID st.assignments with
  | none => ⟨Except.error SvcError.notFound, st, []⟩
  | some assignment =>
    if assignment.workerID = workerID then
      if assignment.status = AssignmentStatus.inProgress then
        let updated := { assignment with
          status := AssignmentStatus.completed
          completedAt := some now }
        if orc.assignmentUpdateFails then
          ⟨Except.error SvcError.persistence, st, []⟩
        else
          let st1 := { st with
            assignments := setAssoc assignmentID updated st.assignments }
          match findAssoc assignment.bookingID st1.bookings with
          | none => ⟨Except.error SvcError.persistence, st1, []⟩
          | some booking =>
            let booking1 := { booking with
              status := BookingStatus.completed
              actualEndTime := some now
              actualDurationMinutes :=
                match booking.actualStartTime with
                | some s => some ((now - s) / 60)
                | none => booking.actualDurationMinutes }
            if orc.bookingUpdateFails then
              ⟨Except.error SvcError.persistence, st1, []⟩
            else
              let st2 := { st1 with
                bookings := setAssoc assignment.bookingID booking1 st1.bookings }
              let stopFx : List SideEffect :=
                if orc.locationEnabled then
                  [SideEffect.locationStop workerID assignmentID (!orc.trackingStopFails)]
                else []
              match findAssoc assignment.workerID st2.workers with
              | none =>
                ⟨Except.ok updated, st2,
                  [SideEffect.callMaskingDisable assignment.bookingID,
                   SideEffect.chatRoomClose assignment.bookingID serviceCompletedReason
                     (!orc.chatCloseFails)] ++ stopFx ++
                  [SideEffect.notifyWorkerCompleted assignment.bookingID]⟩
              | some w =>
                let earnings := completionEarnings booking
                if orc.statsIncrementFails then
                  ⟨Except.ok updated, st2,
                    [SideEffect.callMaskingDisable assignment.bookingID,
                     SideEffect.statsIncrement w.id earnings false,
                     SideEffect.chatRoomClose assignment.bookingID serviceCompletedReason
                       (!orc.chatCloseFails)] ++ stopFx ++
                    [SideEffect.notifyWorkerCompleted assignment.bookingID]⟩
                else
                  let prev := (findAssoc w.id st2.stats).getD ⟨0, 0⟩
                  let st3 := { st2 with
                    stats := setAssoc w.id
                      ⟨prev.completedJobs + 1, prev.totalEarnings + earnings⟩ st2.stats }
                  ⟨Except.ok updated, st3,
                    [SideEffect.callMaskingDisable assignment.bookingID,
                     SideEffect.statsIncrement w.id earnings true,
                     SideEffect.chatRoomClose assignment.bookingID serviceCompletedReason
                       (!orc.chatCloseFails)] ++ stopFx ++
                    [SideEffect.notifyWorkerCompleted assignment.bookingID]⟩
      else ⟨Except.error SvcError.invalidState, st, []⟩
    else ⟨Except.error SvcError.unauthorized, st, []⟩

/-- `GetWorkerAssignment(assignmentID, workerID)`: load and check ownership;
the loaded record is returned verbatim, with no privacy projection. -/
def GetWorkerAssignment (st : Store) (assignmentID workerID : Nat) :
    Except SvcError WorkerAssignment :=
  match findAssoc assignmentID st.assignments with
  | none => Except.error SvcError.notFound
  | some assignment =>
    if assignment.workerID = workerID then Except.ok assignment
    else Except.error SvcError.unauthorized

/-- `models.WorkerAssignmentUserResponse`: the wire shape of the booking
owner inside a worker-facing response. It has no phone field at all; the
`subscription` and `notificationSettings` slots exist but are populated
with a simplified placeholder (`nil`). -/
structure WorkerAssignmentUserResponse where
  id : Nat
  name : String
  email : Option String
  userType : String
  avatar : Option String
  gender : Option String
  isActive : Bool
  lastLoginAt : Option Nat
  roleApplicationStatus : String
  applicationDate : Option Nat
  approvalDate : Option Nat
  walletBalance : ℚ
  subscriptionID : Option Nat
  subscription : Option String
  hasActiveSubscription : Bool
  subscriptionExpiryDate : Option Nat
  notificationSettings : Option String
deriving DecidableEq, Repr

/-- `models.WorkerAssignmentBookingResponse`: the wire shape of the booking
inside a worker-facing response. -/
structure WorkerAssignmentBookingResponse where
  model : GormModel
  bookingReference : String
  userID : Nat
  serviceID : Nat
  status : String
  paymentStatus : String
  bookingType : String
  completionType : Option String
  scheduledDate : Option Nat
  scheduledTime : Option String
  scheduledEndTime : Option Nat
  actualStartTime : Option Nat
  actualEndTime : Option Nat
  actualDurationMinutes : Option Nat
  address : String
  description : String
  contactPerson : String
  contactPhone : String
  specialInstructions : String
  holdExpiresAt : Option Nat
  quoteAmount : Option ℚ
  quoteNotes : String
  quoteProvidedBy : Option Nat
  quoteProvidedAt : Option Nat
  quoteAcceptedAt : Option Nat
  quoteExpiresAt : Option Nat
  user : WorkerAssignmentUserResponse
  service : ServiceModel
deriving DecidableEq, Repr

/-- `models.WorkerAssignmentResponse`: the worker-facing wire shape of a
full assignment. -/
structure WorkerAssignmentResponse where
  model : GormModel
  bookingID : Nat
  workerID : Nat
  assignedBy : Nat
  status : AssignmentStatus
  assignedAt : Nat
  acceptedAt : Option Nat
  rejectedAt : Option Nat
  startedAt : Option Nat
  completedAt : Option Nat
  assignmentNotes : String
  acceptanceNotes : String
  rejectionNotes : String
  rejectionReason : String
  booking : WorkerAssignmentBookingResponse
  worker : UserModel
  assignedByUser : UserModel
deriving DecidableEq, Repr

/-- `convertToPrivacyProtectedResponse`: pure projection from a loaded
assignment to the worker-facing response. The booking owner's phone is
never copied ("Phone is intentionally excluded for privacy"), and the
`Subscription` / `NotificationSettings` slots are set to `nil`. -/
def convertToPrivacyProtectedResponse (assignment : WorkerAssignment) :
    WorkerAssignmentResponse :=
  { model := assignment.model
    bookingID := assignment.bookingID
    workerID := assignment.workerID
    assignedBy := assignment.assignedBy
    status := assignment.status
    assignedAt := assignment.assignedAt
    acceptedAt := assignment.acceptedAt
    rejectedAt := assignment.rejectedAt
    startedAt := assignment.startedAt
    completedAt := assignment.completedAt
    assignmentNotes := assignment.assignmentNotes
    acceptanceNotes := assignment.acceptanceNotes
    rejectionNotes := assignment.rejectionNotes
    rejectionReason := assignment.rejectionReason
    booking :=
      { model := assignment.booking.model
        bookingReference := assignment.booking.bookingReference
        userID := assignment.booking.userID
        serviceID := assignment.booking.serviceID
        status := bookingStatusString assignment.booking.status
        paymentStatus := assignment.booking.paymentStatus
        bookingType := assignment.booking.bookingType
        completionType := assignment.booking.completionType
        scheduledDate := assignment.booking.scheduledDate
        scheduledTime := assignment.booking.scheduledTime
        scheduledEndTime := assignment.booking.scheduledEndTime
        actualStartTime := assignment.booking.actualStartTime
        actualEndTime := assignment.booking.actualEndTime
        actualDurationMinutes := assignment.booking.actualDurationMinutes
        address := assignment.booking.address
        description := assignment.booking.description
        contactPerson := assignment.booking.contactPerson
        contactPhone := assignment.booking.contactPhone
        specialInstructions := assignment.booking.specialInstructions
        holdExpiresAt := assignment.booking.holdExpiresAt
        quoteAmount := assignment.booking.quoteAmount
        quoteNotes := assignment.booking.quoteNotes
        quoteProvidedBy := assignment.booking.quoteProvidedBy
        quoteProvidedAt := assignment.booking.quoteProvidedAt
        quoteAcceptedAt := assignment.booking.quoteAcceptedAt
        quoteExpiresAt := assignment.booking.quoteExpiresAt
        user :=
          { id := assignment.booking.user.id
            name := assignment.booking.user.name
            email := assignment.booking.user.email
            userType := assignment.booking.user.userType
            avatar := assignment.booking.user.avatar
            gender := assignment.booking.user.gender
            isActive := assignment.booking.user.isActive
            lastLoginAt := assignment.booking.user.lastLoginAt
            roleApplicationStatus := assignment.booking.user.roleApplicationStatus
            applicationDate := assignment.booking.user.applicationDate
            approvalDate := assignment.booking.user.approvalDate
            walletBalance := assignment.booking.user.walletBalance
            subscriptionID := assignment.booking.user.subscriptionID
            subscription := none
            hasActiveSubscription := assignment.booking.user.hasActiveSubscription
            subscriptionExpiryDate := assignment.booking.user.subscriptionExpiryDate
            notificationSettings := none }
        service := assignment.booking.service }
    worker := assignment.worker
    assignedByUser := assignment.assignedByUser }

/-- `GetWorkerAssignments(workerID, filters)`: the service forwards the
filters to the repository; the repository outcome (a page of assignments,
or a failure) is the input here. Every returned element is passed through
the privacy projection, and the pagination is copied field by field. -/
def GetWorkerAssignments
    (repoResult : Except Unit (List WorkerAssignment × Pagination)) :
    Except SvcError (List WorkerAssignmentResponse × Pagination) :=
  match repoResult with
  | Except.error _ => Except.error SvcError.persistence
  | Except.ok (assignments, pagination) =>
    Except.ok
      (assignments.map convertToPrivacyProtectedResponse,
       { page := pagination.page
         limit := pagination.limit
         total := pagination.total
         totalPages := pagination.totalPages })

/-- Read phase of `AcceptAssignment` as executed against the persistence
layer: one `GetByID` plus the in-memory ownership and status checks. The
source performs a plain read-modify-write with no conditional update, so
this phase is a separate atomic step from the write phase below. -/
def acceptReadPhase (st : Store) (assignmentID workerID : Nat) :
    Except SvcError WorkerAssignment :=
  match findAssoc assignmentID st.assignments with
  | none => Except.error SvcError.notFound
  | some assignment =>
    if assignment.workerID = workerID then
      if assignment.status = AssignmentStatus.assigned then Except.ok assignment
      else Except.error SvcError.invalidState
    else Except.error SvcError.unauthorized

/-- Write phase of `AcceptAssignment`: everything after the precondition
checks, operating on the copy of the assignment obtained by the read
phase. -/
def acceptWritePhase (st : Store) (orc : Oracle) (now : Nat)
    (assignmentID : Nat) (assignment : WorkerAssignment) (notes : String) :
    OpResult :=
  let updated := { assignment with
    status := AssignmentStatus.accepted
    acceptedAt := some now
    acceptanceNotes := notes }
  if orc.assignmentUpdateFails then
    ⟨Except.error SvcError.persistence, st, []⟩
  else
    let st1 := { st with
      assignments := setAssoc assignmentID updated st.assignments }
    match findAssoc assignment.bookingID st1.bookings with
    | none => ⟨Except.error SvcError.persistence, st1, []⟩
    | some booking =>
      let booking1 := { booking with status := BookingStatus.confirmed }
      if orc.bookingUpdateFails then
        ⟨Except.error SvcError.persistence, st1, []⟩
      else
        let st2 := { st1 with
          bookings := setAssoc assignment.bookingID booking1 st1.bookings }
        ⟨Except.ok updated, st2,
          [SideEffect.chatRoomCreate assignment.bookingID (!orc.chatCreateFails),
           SideEffect.callMaskingEnable assignment.bookingID,
           SideEffect.notifyUserWorkerAssigned assignmentID,
           SideEffect.notifyAssignmentAccepted assignmentID]⟩

/-- Two concurrent `AcceptAssignment` calls on the same assignment under
the schedule in which both read phases run before either write phase (the
interleaving nothing in the source prevents, since the read-check-write is
not a conditional update and takes no lock). Returns both Go return values,
the final store, and the combined side-effect fan-out. -/
def interleavedAccepts (st : Store) (orc : Oracle) (now : Nat)
    (assignmentID workerID : Nat) (notes : String) :
    Except SvcError WorkerAssignment × Except SvcError WorkerAssignment ×
      Store × List SideEffect :=
  match acceptReadPhase st assignmentID workerID,
        acceptReadPhase st assignmentID workerID with
  | Except.ok a1, Except.ok a2 =>
    let r1 := acceptWritePhase st orc now assignmentID a1 notes
    let r2 := acceptWritePhase r1.store orc now assignmentID a2 notes
    (r1.ret, r2.ret, r2.store, r1.effects ++ r2.effects)
  | Except.ok a1, Except.error e2 =>
    let r1 := acceptWritePhase st orc now assignmentID a1 notes
    (r1.ret, Except.error e2, r1.store, r1.effects)
  | Except.error e1, Except.ok a2 =>
    let r2 := acceptWritePhase st orc now assignmentID a2 notes
    (Except.error e1, r2.ret, r2.store, r2.effects)
  | Except.error e1, Except.error e2 =>
    (Except.error e1, Except.error e2, st, [])

/-- The §3 timestamp invariant exactly as the spec words it: at most one of
`acceptedAt` / `rejectedAt` is set, `startedAt` only once `acceptedAt` is
set, `completedAt` only once `startedAt` is set. -/
def timestampInv (a : WorkerAssignment) : Prop :=
  ¬(a.acceptedAt.isSome = true ∧ a.rejectedAt.isSome = true) ∧
  (a.startedAt.isSome = true → a.acceptedAt.isSome = true) ∧
  (a.completedAt.isSome = true → a.startedAt.isSome = true)

instance (a : WorkerAssignment) : Decidable (timestampInv a) := by
  unfold timestampInv; infer_instance

/-- Status-timestamp coupling: the timestamps an assignment's status
promises have actually been recorded, and the ones it excludes have not. -/
def statusCoupling (a : WorkerAssignment) : Prop :=
  (a.status = AssignmentStatus.assigned →
    a.acceptedAt = none ∧ a.rejectedAt = none) ∧
  (a.status = AssignmentStatus.accepted → a.acceptedAt.isSome = true) ∧
  (a.status = AssignmentStatus.inProgress → a.startedAt.isSome = true)

instance (a : WorkerAssignment) : Decidable (statusCoupling a) := by
  unfold statusCoupling; infer_instance

/-- The strengthened assignment invariant: the §3 timestamp invariant
together with the status-timestamp coupling. -/
def assignmentInv (a : WorkerAssignment) : Prop :=
  timestampInv a ∧ statusCoupling a

instance (a : WorkerAssignment) : Decidable (assignmentInv a) := by
  unfold assignmentInv; infer_instance

/-- The assignment record as `AcceptAssignment` persists it. -/
def acceptUpdated (now : Nat) (notes : String) (a : WorkerAssignment) :
    WorkerAssignment :=
  { a with
    status := AssignmentStatus.accepted
    acceptedAt := some now
    acceptanceNotes := notes }

/-- The assignment record as `RejectAssignment` persists it. -/
def rejectUpdated (now : Nat) (reason notes : String) (a : WorkerAssignment) :
    WorkerAssignment :=
  { a with
    status := AssignmentStatus.rejected
    rejectedAt := some now
    rejectionReason := reason
    rejectionNotes := notes }

/-- The assignment record as `StartAssignment` persists it. -/
def startUpdated (now : Nat) (a : WorkerAssignment) : WorkerAssignment :=
  { a with
    status := AssignmentStatus.inProgress
    startedAt := some now }

/-- The assignment record as `CompleteAssignment` persists it. -/
def completeUpdated (now : Nat) (a : WorkerAssignment) : WorkerAssignment :=
  { a with
    status := AssignmentStatus.completed
    completedAt := some now }

/-- The booking record as `Accept`/`Reject` persist it. -/
def confirmedBooking (b : BookingModel) : BookingModel :=
  { b with status := BookingStatus.confirmed }

/-- The booking record as `StartAssignment` persists it. -/
def startedBooking (now : Nat) (b : BookingModel) : BookingModel :=
  { b with
    status := BookingStatus.inProgress
    actualStartTime := some now }

/-- The booking record as `CompleteAssignment` persists it. -/
def completedBooking (now : Nat) (b : BookingModel) : BookingModel :=
  { b with
    status := BookingStatus.completed
    actualEndTime := some now
    actualDurationMinutes :=
      match b.actualStartTime with
      | some s => some ((now - s) / 60)
      | none => b.actualDurationMinutes }

/-- A key found by `findAssoc` comes from an element of the list. -/
theorem findAssoc_mem {α : Type} {k : Nat} {l : List (Nat × α)} {v : α}
    (h : findAssoc k l = some v) : (k, v) ∈ l := by
  induction l with
  | nil => simp [findAssoc] at h
  | cons p rest ih =>
    obtain ⟨k2, v2⟩ := p
    unfold findAssoc at h
    by_cases hk : k = k2
    · rw [if_pos hk] at h
      cases h
      subst hk
      exact List.mem_cons_self _ _
    · rw [if_neg hk] at h
      exact List.mem_cons_of_mem _ (ih h)

/-- Every element of `setAssoc k v l` is the new binding or an old one. -/
theorem mem_setAssoc {α : Type} {k : Nat} {v : α} {l : List (Nat × α)}
    {e : Nat × α} (he : e ∈ setAssoc k v l) : e = (k, v) ∨ e ∈ l := by
  induction l with
  | nil =>
    unfold setAssoc at he
    cases he with
    | head => exact Or.inl rfl
    | tail _ h => cases h
  | cons p rest ih =>
    obtain ⟨k2, v2⟩ := p
    unfold setAssoc at he
    by_cases hk : k = k2
    · rw [if_pos hk] at he
      cases he with
      | head => exact Or.inl rfl
      | tail _ h => exact Or.inr (List.mem_cons_of_mem _ h)
    · rw [if_neg hk] at he
      cases he with
      | head => exact Or.inr (List.mem_cons_self _ _)
      | tail _ h =>
        cases ih h with
        | inl h2 => exact Or.inl h2
        | inr h2 => exact Or.inr (List.mem_cons_of_mem _ h2)

/-- Looking up the key just set returns the new value. -/
theorem findAssoc_setAssoc_self {α : Type} (k : Nat) (v : α)
    (l : List (Nat × α)) : findAssoc k (setAssoc k v l) = some v := by
  induction l with
  | nil => simp [setAssoc, findAssoc]
  | cons p rest ih =>
    obtain ⟨k2, v2⟩ := p
    unfold setAssoc
    by_cases hk : k = k2
    · rw [if_pos hk]
      simp [findAssoc]
    · rw [if_neg hk]
      unfold findAssoc
      rw [if_neg hk]
      exact ih

/-- Setting one key leaves lookups of other keys unchanged. -/
theorem findAssoc_setAssoc_ne {α : Type} {k k2 : Nat} (v : α)
    (l : List (Nat × α)) (hk : k ≠ k2) :
    findAssoc k (setAssoc k2 v l) = findAssoc k l := by
  induction l with
  | nil => simp [setAssoc, findAssoc, hk]
  | cons p rest ih =>
    obtain ⟨k3, v3⟩ := p
    unfold setAssoc
    by_cases h2 : k2 = k3
    · rw [if_pos h2]
      unfold findAssoc
      rw [if_neg hk, if_neg (h2 ▸ hk)]
    · rw [if_neg h2]
      unfold findAssoc
      by_cases h3 : k = k3
      · rw [if_pos h3, if_pos h3]
      · rw [if_neg h3, if_neg h3]
        exact ih

/-- `AcceptAssignment` on a missing assignment: bare not-found error. -/
theorem accept_notFound (st : Store) (orc : Oracle) (now aid wid : Nat)
    (notes : String) (hl : findAssoc aid st.assignments = none) :
    AcceptAssignment st orc now aid wid notes =
      ⟨Except.error SvcError.notFound, st, []⟩ := by
  unfold AcceptAssignment
  rw [hl]

/-- `AcceptAssignment` with a foreign worker id: bare unauthorized error,
whatever the assignment's status. -/
theorem accept_unauthorized (st : Store) (orc : Oracle) (now aid wid : Nat)
    (notes : String) (a : WorkerAssignment)
    (hl : findAssoc aid st.assignments = some a) (hw : a.workerID ≠ wid) :
    AcceptAssignment st orc now aid wid notes =
      ⟨Except.error SvcError.unauthorized, st, []⟩ := by
  unfold AcceptAssignment
  rw [hl]
  simp [hw]

/-- `AcceptAssignment` in any status other than `assigned`: bare
invalid-state error, store untouched, no side effects. -/
theorem accept_invalidState (st : Store) (orc : Oracle) (now aid wid : Nat)
    (notes : String) (a : WorkerAssignment)
    (hl : findAssoc aid st.assignments = some a) (hw : a.workerID = wid)
    (hs : a.status ≠ AssignmentStatus.assigned) :
    AcceptAssignment st orc now aid wid notes =
      ⟨Except.error SvcError.invalidState, st, []⟩ := by
  unfold AcceptAssignment
  rw [hl]
  subst hw
  simp [hs]

/-- `AcceptAssignment` happy path, fully characterized. -/
theorem accept_success (st : Store) (orc : Oracle) (now aid wid : Nat)
    (notes : String) (a : WorkerAssignment) (b : BookingModel)
    (hl : findAssoc aid st.assignments = some a) (hw : a.workerID = wid)
    (hs : a.status = AssignmentStatus.assigned)
    (ha : orc.assignmentUpdateFails = false)
    (hb : findAssoc a.bookingID st.bookings = some b)
    (hbu : orc.bookingUpdateFails = false) :
    AcceptAssignment st orc now aid wid notes =
      ⟨Except.ok (acceptUpdated now notes a),
       { assignments := setAssoc aid (acceptUpdated now notes a) st.assignments
         bookings := setAssoc a.bookingID (confirmedBooking b) st.bookings
         workers := st.workers
         stats := st.stats },
       [SideEffect.chatRoomCreate a.bookingID (!orc.chatCreateFails),
        SideEffect.callMaskingEnable a.bookingID,
        SideEffect.notifyUserWorkerAssigned aid,
        SideEffect.notifyAssignmentAccepted aid]⟩ := by
  unfold AcceptAssignment acceptUpdated confirmedBooking
  rw [hl]
  subst hw
  simp [hs, ha, hb, hbu]

/-- `RejectAssignment` on a missing assignment. -/
theorem reject_notFound (st : Store) (orc : Oracle) (now aid wid : Nat)
    (reason notes : String) (hl : findAssoc aid st.assignments = none) :
    RejectAssignment st orc now aid wid reason notes =
      ⟨Except.error SvcError.notFound, st, []⟩ := by
  unfold RejectAssignment
  rw [hl]

/-- `RejectAssignment` with a foreign worker id. -/
theorem reject_unauthorized (st : Store) (orc : Oracle) (now aid wid : Nat)
    (reason notes : String) (a : WorkerAssignment)
    (hl : findAssoc aid st.assignments = some a) (hw : a.workerID ≠ wid) :
    RejectAssignment st orc now aid wid reason notes =
      ⟨Except.error SvcError.unauthorized, st, []⟩ := by
  unfold RejectAssignment
  rw [hl]
  simp [hw]

/-- `RejectAssignment` in any status other than `assigned`. -/
theorem reject_invalidState (st : Store) (orc : Oracle) (now aid wid : Nat)
    (reason notes : String) (a : WorkerAssignment)
    (hl : findAssoc aid st.assignments = some a) (hw : a.workerID = wid)
    (hs : a.status ≠ AssignmentStatus.assigned) :
    RejectAssignment st orc now aid wid reason notes =
      ⟨Except.error SvcError.invalidState, st, []⟩ := by
  unfold RejectAssignment
  rw [hl]
  subst hw
  simp [hs]

/-- `RejectAssignment` happy path, fully characterized. -/
theorem reject_success (st : Store) (orc : Oracle) (now aid wid : Nat)
    (reason notes : String) (a : WorkerAssignment) (b : BookingModel)
    (hl : findAssoc aid st.assignments = some a) (hw : a.workerID = wid)
    (hs : a.status = AssignmentStatus.assigned)
    (ha : orc.assignmentUpdateFails = false)
    (hb : findAssoc a.bookingID st.bookings = some b)
    (hbu : orc.bookingUpdateFails = false) :
    RejectAssignment st orc now aid wid reason notes =
      ⟨Except.ok (rejectUpdated now reason notes a),
       { assignments := setAssoc aid (rejectUpdated now reason notes a) st.assignments
         bookings := setAssoc a.bookingID (confirmedBooking b) st.bookings
         workers := st.workers
         stats := st.stats },
       [SideEffect.callMaskingDisable a.bookingID,
        SideEffect.notifyAssignmentRejectedSvc aid,
        SideEffect.notifyAssignmentRejected aid]⟩ := by
  unfold RejectAssignment rejectUpdated confirmedBooking
  rw [hl]
  subst hw
  simp [hs, ha, hb, hbu]

/-- `StartAssignment` on a missing assignment. -/
theorem start_notFound (st : Store) (orc : Oracle) (now aid wid : Nat)
    (notes : String) (hl : findAssoc aid st.assignments = none) :
    StartAssignment st orc now aid wid notes =
      ⟨Except.error SvcError.notFound, st, []⟩ := by
  unfold StartAssignment
  rw [hl]

/-- `StartAssignment` with a foreign worker id. -/
theorem start_unauthorized (st : Store) (orc : Oracle) (now aid wid : Nat)
    (notes : String) (a : WorkerAssignment)
    (hl : findAssoc aid st.assignments = some a) (hw : a.workerID ≠ wid) :
    StartAssignment st orc now aid wid notes =
      ⟨Except.error SvcError.unauthorized, st, []⟩ := by
  unfold StartAssignment
  rw [hl]
  simp [hw]

/-- `StartAssignment` in any status other than `accepted`. -/
theorem start_invalidState (st : Store) (orc : Oracle) (now aid wid : Nat)
    (notes : String) (a : WorkerAssignment)
    (hl : findAssoc aid st.assignments = some a) (hw : a.workerID = wid)
    (hs : a.status ≠ AssignmentStatus.accepted) :
    StartAssignment st orc now aid wid notes =
      ⟨Except.error SvcError.invalidState, st, []⟩ := by
  unfold StartAssignment
  rw [hl]
  subst hw
  simp [hs]

/-- `StartAssignment` happy path, fully characterized. -/
theorem start_success (st : Store) (orc : Oracle) (now aid wid : Nat)
    (notes : String) (a : WorkerAssignment) (b : BookingModel)
    (hl : findAssoc aid st.assignments = some a) (hw : a.workerID = wid)
    (hs : a.status = AssignmentStatus.accepted)
    (ha : orc.assignmentUpdateFails = false)
    (hb : findAssoc a.bookingID st.bookings = some b)
    (hbu : orc.bookingUpdateFails = false) :
    StartAssignment st orc now aid wid notes =
      ⟨Except.ok (startUpdated now a),
       { assignments := setAssoc aid (startUpdated now a) st.assignments
         bookings := setAssoc a.bookingID (startedBooking now b) st.bookings
         workers := st.workers
         stats := st.stats },
       (if orc.locationEnabled then
         [SideEffect.locationStart wid aid (!orc.trackingStartFails)]
        else []) ++
       [SideEffect.notifyWorkerStarted a.bookingID]⟩ := by
  unfold StartAssignment startUpdated startedBooking
  rw [hl]
  subst hw
  simp [hs, ha, hb, hbu]

/-- `CompleteAssignment` on a missing assignment. -/
theorem complete_notFound (st : Store) (orc : Oracle) (now aid wid : Nat)
    (notes : String) (mats photos : List String)
    (hl : findAssoc aid st.assignments = none) :
    CompleteAssignment st orc now aid wid notes mats photos =
      ⟨Except.error SvcError.notFound, st, []⟩ := by
  unfold CompleteAssignment
  rw [hl]

/-- `CompleteAssignment` with a foreign worker id. -/
theorem complete_unauthorized (st : Store) (orc : Oracle) (now aid wid : Nat)
    (notes : String) (mats photos : List String) (a : WorkerAssignment)
    (hl : findAssoc aid st.assignments = some a) (hw : a.workerID ≠ wid) :
    CompleteAssignment st orc now aid wid notes mats photos =
      ⟨Except.error SvcError.unauthorized, st, []⟩ := by
  unfold CompleteAssignment
  rw [hl]
  simp [hw]

/-- `CompleteAssignment` in any status other than `in_progress`. -/
theorem complete_invalidState (st : Store) (orc : Oracle) (now aid wid : Nat)
    (notes : String) (mats photos : List String) (a : WorkerAssignment)
    (hl : findAssoc aid st.assignments = some a) (hw : a.workerID = wid)
    (hs : a.status ≠ AssignmentStatus.inProgress) :
    CompleteAssignment st orc now aid wid notes mats photos =
      ⟨Except.error SvcError.invalidState, st, []⟩ := by
  unfold CompleteAssignment
  rw [hl]
  subst hw
  simp [hs]

/-- Core of `CompleteAssignment`: whatever happens to the best-effort
worker-statistics lookup and increment, once both persisted writes have
gone through, the call returns the updated assignment and both committed
records are in the store. -/
theorem complete_core (st : Store) (orc : Oracle) (now aid wid : Nat)
    (notes : String) (mats photos : List String)
    (a : WorkerAssignment) (b : BookingModel)
    (hl : findAssoc aid st.assignments = some a) (hw : a.workerID = wid)
    (hs : a.status = AssignmentStatus.inProgress)
    (ha : orc.assignmentUpdateFails = false)
    (hb : findAssoc a.bookingID st.bookings = some b)
    (hbu : orc.bookingUpdateFails = false) :
    (CompleteAssignment st orc now aid wid notes mats photos).ret =
      Except.ok (completeUpdated now a) ∧
    (CompleteAssignment st orc now aid wid notes mats photos).store.assignments =
      setAssoc aid (completeUpdated now a) st.assignments ∧
    (CompleteAssignment st orc now aid wid notes mats photos).store.bookings =
      setAssoc a.bookingID (completedBooking now b) st.bookings := by
  unfold CompleteAssignment completeUpdated completedBooking
  rw [hl]
  subst hw
  cases hwk : findAssoc a.workerID st.workers with
  | none => simp [hs, ha, hb, hbu, hwk]
  | some w =>
    cases hsi : orc.statsIncrementFails with
    | false => simp [hs, ha, hb, hbu, hwk, hsi]
    | true => simp [hs, ha, hb, hbu, hwk, hsi]

/-- `CompleteAssignment` happy path with the worker row found and the
statistics increment succeeding, fully characterized. -/
theorem complete_success (st : Store) (orc : Oracle) (now aid wid : Nat)
    (notes : String) (mats photos : List String)
    (a : WorkerAssignment) (b : BookingModel) (w : WorkerRec)
    (hl : findAssoc aid st.assignments = some a) (hw : a.workerID = wid)
    (hs : a.status = AssignmentStatus.inProgress)
    (ha : orc.assignmentUpdateFails = false)
    (hb : findAssoc a.bookingID st.bookings = some b)
    (hbu : orc.bookingUpdateFails = false)
    (hwk : findAssoc a.workerID st.workers = some w)
    (hsi : orc.statsIncrementFails = false) :
    CompleteAssignment st orc now aid wid notes mats photos =
      ⟨Except.ok (completeUpdated now a),
       { assignments := setAssoc aid (completeUpdated now a) st.assignments
         bookings := setAssoc a.bookingID (completedBooking now b) st.bookings
         workers := st.workers
         stats := setAssoc w.id
           { completedJobs := ((findAssoc w.id st.stats).getD ⟨0, 0⟩).completedJobs + 1
             totalEarnings :=
               ((findAssoc w.id st.stats).getD ⟨0, 0⟩).totalEarnings +
                 completionEarnings b } st.stats },
       [SideEffect.callMaskingDisable a.bookingID,
        SideEffect.statsIncrement w.id (completionEarnings b) true,
        SideEffect.chatRoomClose a.bookingID serviceCompletedReason
          (!orc.chatCloseFails)] ++
       (if orc.locationEnabled then
         [SideEffect.locationStop wid aid (!orc.trackingStopFails)]
        else []) ++
       [SideEffect.notifyWorkerCompleted a.bookingID]⟩ := by
  unfold CompleteAssignment completeUpdated completedBooking
  rw [hl]
  subst hw
  simp [hs, ha, hb, hbu, hwk, hsi]

/-- `GetWorkerAssignment` with a foreign worker id. -/
theorem get_unauthorized (st : Store) (aid wid : Nat) (a : WorkerAssignment)
    (hl : findAssoc aid st.assignments = some a) (hw : a.workerID ≠ wid) :
    GetWorkerAssignment st aid wid = Except.error SvcError.unauthorized := by
  unfold GetWorkerAssignment
  rw [hl]
  simp [hw]

/-- A successful `GetWorkerAssignment` returns exactly the stored record. -/
theorem get_ok_lookup {st : Store} {aid wid : Nat} {a : WorkerAssignment}
    (h : GetWorkerAssignment st aid wid = Except.ok a) :
    findAssoc aid st.assignments = some a := by
  unfold GetWorkerAssignment at h
  cases hl : findAssoc aid st.assignments with
  | none => rw [hl] at h; simp at h
  | some a0 =>
    rw [hl] at h
    by_cases hw : a0.workerID = wid
    · simp [hw] at h
      subst h
      rfl
    · simp [hw] at h

/-- `AcceptAssignment` is exactly its read phase followed by its write
phase: the source interposes nothing between the precondition checks and
the writes (no conditional update, no lock). -/
theorem accept_eq_phases (st : Store) (orc : Oracle) (now aid wid : Nat)
    (notes : String) :
    AcceptAssignment st orc now aid wid notes =
      match acceptReadPhase st aid wid with
      | Except.error e => ⟨Except.error e, st, []⟩
      | Except.ok a => acceptWritePhase st orc now aid a notes := by
  unfold AcceptAssignment acceptReadPhase acceptWritePhase
  cases hl : findAssoc aid st.assignments with
  | none => rfl
  | some a =>
    by_cases hw : a.workerID = wid
    · by_cases hs : a.status = AssignmentStatus.assigned
      · simp [hw, hs]
      · simp [hw, hs]
    · simp [hw]

/-- Modify only the booking owner's phone number inside a loaded
assignment; used to state that the privacy projection cannot depend on
that field. -/
def setBookingUserPhone (a : WorkerAssignment) (p : String) :
    WorkerAssignment :=
  { a with booking :=
    { a.booking with user := { a.booking.user with phone := p } } }

/-- Every assignment row of a table satisfies the strengthened invariant
(binder-free once the table is concrete). -/
def allInv : List (Nat × WorkerAssignment) → Prop
  | [] => True
  | (_, a) :: rest => assignmentInv a ∧ allInv rest

instance allInvDecidable : (l : List (Nat × WorkerAssignment)) →
    Decidable (allInv l)
  | [] => Decidable.isTrue trivial
  | (_, _) :: rest =>
    have := allInvDecidable rest
    instDecidableAnd

/-- `allInv` is membership-wise invariance. -/
theorem allInv_iff_mem (l : List (Nat × WorkerAssignment)) :
    allInv l ↔ ∀ e ∈ l, assignmentInv e.2 := by
  induction l with
  | nil => simp [allInv]
  | cons p rest ih =>
    obtain ⟨k, a⟩ := p
    unfold allInv
    rw [ih]
    constructor
    · rintro ⟨h1, h2⟩ e he
      cases he with
      | head => exact h1
      | tail _ h => exact h2 e h
    · intro h
      exact ⟨h (k, a) (List.mem_cons_self _ _),
             fun e he => h e (List.mem_cons_of_mem _ he)⟩

/-- Example booking owner; the phone number is non-empty on purpose. -/
def exUser : UserModel :=
  { id := 11
    name := "Asha"
    email := some "asha@example.com"
    phone := "9876543210"
    userType := "user"
    avatar := none
    gender := none
    isActive := true
    lastLoginAt := none
    roleApplicationStatus := "none"
    applicationDate := none
    approvalDate := none
    walletBalance := 0
    subscriptionID := none
    hasActiveSubscription := false
    subscriptionExpiryDate := none }

/-- Example worker user (the assignment's preloaded `Worker` relation). -/
def exWorkerUser : UserModel :=
  { exUser with id := 21, name := "Ravi", phone := "9000011111" }

/-- Example service with a list price of 80. -/
def exService : ServiceModel :=
  { model := { id := 5, createdAt := 0, updatedAt := 0 }
    name := "Cleaning"
    price := some 80 }

/-- Example booking (no quote, not yet started). -/
def exBooking : BookingModel :=
  { model := { id := 3, createdAt := 0, updatedAt := 0 }
    bookingReference := "BK-3"
    userID := 11
    serviceID := 5
    status := BookingStatus.pending
    paymentStatus := "pending"
    bookingType := "regular"
    completionType := none
    scheduledDate := none
    scheduledTime := none
    scheduledEndTime := none
    actualStartTime := none
    actualEndTime := none
    actualDurationMinutes := none
    address := "12 Park Road"
    description := "deep clean"
    contactPerson := "Asha"
    contactPhone := "9876543210"
    specialInstructions := ""
    holdExpiresAt := none
    quoteAmount := none
    quoteNotes := ""
    quoteProvidedBy := none
    quoteProvidedAt := none
    quoteAcceptedAt := none
    quoteExpiresAt := none
    user := exUser
    service := exService }

/-- Example assignment in state `assigned`, owned by worker 7. -/
def exAssignment : WorkerAssignment :=
  { model := { id := 1, createdAt := 0, updatedAt := 0 }
    bookingID := 3
    workerID := 7
    assignedBy := 2
    status := AssignmentStatus.assigned
    assignedAt := 50
    acceptedAt := none
    rejectedAt := none
    startedAt := none
    completedAt := none
    assignmentNotes := ""
    acceptanceNotes := ""
    rejectionNotes := ""
    rejectionReason := ""
    booking := exBooking
    worker := exWorkerUser
    assignedByUser := exUser }

/-- Worker row for user 7 (its own id is 40). -/
def exWorker : WorkerRec := { id := 40, userID := 7 }

/-- Example store: one assignment, its booking, the worker row, a stats
row with 4 completed jobs and 100 earned. -/
def exStore : Store :=
  { assignments := [(1, exAssignment)]
    bookings := [(3, exBooking)]
    workers := [(7, exWorker)]
    stats := [(40, { completedJobs := 4, totalEarnings := 100 })] }

/-- Oracle on which every repository write and side-effect port succeeds. -/
def benignOracle : Oracle :=
  { assignmentUpdateFails := false
    bookingUpdateFails := false
    chatCreateFails := false
    chatCloseFails := false
    trackingStartFails := false
    trackingStopFails := false
    statsIncrementFails := false
    locationEnabled := true }

/-- Oracle on which the booking write fails after the assignment write
succeeded. -/
def bookingFailOracle : Oracle := { benignOracle with bookingUpdateFails := true }

/-- Oracle on which every side-effect port fails but both repository
writes succeed. -/
def sideFailOracle : Oracle :=
  { assignmentUpdateFails := false
    bookingUpdateFails := false
    chatCreateFails := true
    chatCloseFails := true
    trackingStartFails := true
    trackingStopFails := true
    statsIncrementFails := true
    locationEnabled := true }

/-- A booking that was started at 10:00 (36000 s) and carries a 120 quote. -/
def exBookingQuote : BookingModel :=
  { exBooking with quoteAmount := some 120, actualStartTime := some 36000 }

/-- The example assignment mid-job. -/
def exAssignmentInProgress : WorkerAssignment :=
  { exAssignment with
    status := AssignmentStatus.inProgress
    acceptedAt := some 60
    startedAt := some 70 }

/-- Store for completion scenarios. -/
def exStoreInProgress : Store :=
  { assignments := [(1, exAssignmentInProgress)]
    bookings := [(3, exBookingQuote)]
    workers := [(7, exWorker)]
    stats := [(40, { completedJobs := 4, totalEarnings := 100 })] }

/-- An assignment that satisfies the bare §3 timestamp invariant while
still `assigned`, because a stray `rejectedAt` is already recorded. -/
def exAssignmentGhostReject : WorkerAssignment :=
  { exAssignment with rejectedAt := some 5 }

/-- Store holding the ghost-reject assignment. -/
def exStoreGhost : Store :=
  { exStore with assignments := [(1, exAssignmentGhostReject)] }

/-- Accepting from `assigned` preserves the strengthened invariant. -/
theorem acceptUpdated_inv (now : Nat) (notes : String) (a : WorkerAssignment)
    (hinv : assignmentInv a) (hs : a.status = AssignmentStatus.assigned) :
    assignmentInv (acceptUpdated now notes a) := by
  obtain ⟨⟨h1, h2, h3⟩, hc1, hc2, hc3⟩ := hinv
  have hre : a.rejectedAt = none := (hc1 hs).2
  unfold acceptUpdated assignmentInv timestampInv statusCoupling
  refine ⟨⟨?_, ?_, ?_⟩, ?_, ?_, ?_⟩
  · simp [hre]
  · intro _; rfl
  · exact h3
  · intro h; simp at h
  · intro _; rfl
  · intro h; simp at h

/-- Rejecting from `assigned` preserves the strengthened invariant. -/
theorem rejectUpdated_inv (now : Nat) (reason notes : String)
    (a : WorkerAssignment) (hinv : assignmentInv a)
    (hs : a.status = AssignmentStatus.assigned) :
    assignmentInv (rejectUpdated now reason notes a) := by
  obtain ⟨⟨h1, h2, h3⟩, hc1, hc2, hc3⟩ := hinv
  have hac : a.acceptedAt = none := (hc1 hs).1
  unfold rejectUpdated assignmentInv timestampInv statusCoupling
  refine ⟨⟨?_, ?_, ?_⟩, ?_, ?_, ?_⟩
  · simp [hac]
  · exact h2
  · exact h3
  · intro h; simp at h
  · intro h; simp at h
  · intro h; simp at h

/-- Starting from `accepted` preserves the strengthened invariant. -/
theorem startUpdated_inv (now : Nat) (a : WorkerAssignment)
    (hinv : assignmentInv a) (hs : a.status = AssignmentStatus.accepted) :
    assignmentInv (startUpdated now a) := by
  obtain ⟨⟨h1, h2, h3⟩, hc1, hc2, hc3⟩ := hinv
  have hac : a.acceptedAt.isSome = true := hc2 hs
  unfold startUpdated assignmentInv timestampInv statusCoupling
  refine ⟨⟨?_, ?_, ?_⟩, ?_, ?_, ?_⟩
  · exact h1
  · intro _; exact hac
  · intro _; rfl
  · intro h; simp at h
  · intro h; simp at h
  · intro _; rfl

/-- Completing from `in_progress` preserves the strengthened invariant. -/
theorem completeUpdated_inv (now : Nat) (a : WorkerAssignment)
    (hinv : assignmentInv a) (hs : a.status = AssignmentStatus.inProgress) :
    assignmentInv (completeUpdated now a) := by
  obtain ⟨⟨h1, h2, h3⟩, hc1, hc2, hc3⟩ := hinv
  have hst : a.startedAt.isSome = true := hc3 hs
  unfold completeUpdated assignmentInv timestampInv statusCoupling
  refine ⟨⟨?_, ?_, ?_⟩, ?_, ?_, ?_⟩
  · exact h1
  · exact h2
  · intro _; exact hst
  · intro h; simp at h
  · intro h; simp at h
  · intro h; simp at h

/-- The assignments table after `AcceptAssignment` is either untouched, or
has exactly the accepted record written over the loaded one. -/
theorem accept_assignments_shape (st : Store) (orc : Oracle)
    (now aid wid : Nat) (notes : String) :
    (AcceptAssignment st orc now aid wid notes).store.assignments =
      st.assignments ∨
    ∃ a, findAssoc aid st.assignments = some a ∧
      a.status = AssignmentStatus.assigned ∧
      (AcceptAssignment st orc now aid wid notes).store.assignments =
        setAssoc aid (acceptUpdated now notes a) st.assignments := by
  unfold AcceptAssignment
  cases hl : findAssoc aid st.assignments with
  | none => exact Or.inl rfl
  | some a =>
    by_cases hw : a.workerID = wid
    · by_cases hs : a.status = AssignmentStatus.assigned
      · cases ha : orc.assignmentUpdateFails with
        | true => left; simp [hw, hs, ha]
        | false =>
          right
          refine ⟨a, rfl, hs, ?_⟩
          cases hb : findAssoc a.bookingID st.bookings with
          | none => simp [hw, hs, ha, hb, acceptUpdated]
          | some b =>
            cases hbu : orc.bookingUpdateFails with
            | true => simp [hw, hs, ha, hb, hbu, acceptUpdated]
            | false => simp [hw, hs, ha, hb, hbu, acceptUpdated]
      · left; simp [hw, hs]
    · left; simp [hw]

/-- The assignments table after `RejectAssignment`, same shape. -/
theorem reject_assignments_shape (st : Store) (orc : Oracle)
    (now aid wid : Nat) (reason notes : String) :
    (RejectAssignment st orc now aid wid reason notes).store.assignments =
      st.assignments ∨
    ∃ a, findAssoc aid st.assignments = some a ∧
      a.status = AssignmentStatus.assigned ∧
      (RejectAssignment st orc now aid wid reason notes).store.assignments =
        setAssoc aid (rejectUpdated now reason notes a) st.assignments := by
  unfold RejectAssignment
  cases hl : findAssoc aid st.assignments with
  | none => exact Or.inl rfl
  | some a =>
    by_cases hw : a.workerID = wid
    · by_cases hs : a.status = AssignmentStatus.assigned
      · cases ha : orc.assignmentUpdateFails with
        | true => left; simp [hw, hs, ha]
        | false =>
          right
          refine ⟨a, rfl, hs, ?_⟩
          cases hb : findAssoc a.bookingID st.bookings with
          | none => simp [hw, hs, ha, hb, rejectUpdated]
          | some b =>
            cases hbu : orc.bookingUpdateFails with
            | true => simp [hw, hs, ha, hb, hbu, rejectUpdated]
            | false => simp [hw, hs, ha, hb, hbu, rejectUpdated]
      · left; simp [hw, hs]
    · left; simp [hw]

/-- The assignments table after `StartAssignment`, same shape. -/
theorem start_assignments_shape (st : Store) (orc : Oracle)
    (now aid wid : Nat) (notes : String) :
    (StartAssignment st orc now aid wid notes).store.assignments =
      st.assignments ∨
    ∃ a, findAssoc aid st.assignments = some a ∧
      a.status = AssignmentStatus.accepted ∧
      (StartAssignment st orc now aid wid notes).store.assignments =
        setAssoc aid (startUpdated now a) st.assignments := by
  unfold StartAssignment
  cases hl : findAssoc aid st.assignments with
  | none => exact Or.inl rfl
  | some a =>
    by_cases hw : a.workerID = wid
    · by_cases hs : a.status = AssignmentStatus.accepted
      · cases ha : orc.assignmentUpdateFails with
        | true => left; simp [hw, hs, ha]
        | false =>
          right
          refine ⟨a, rfl, hs, ?_⟩
          cases hb : findAssoc a.bookingID st.bookings with
          | none => simp [hw, hs, ha, hb, startUpdated]
          | some b =>
            cases hbu : orc.bookingUpdateFails with
            | true => simp [hw, hs, ha, hb, hbu, startUpdated]
            | false => simp [hw, hs, ha, hb, hbu, startUpdated]
      · left; simp [hw, hs]
    · left; simp [hw]

/-- The assignments table after `CompleteAssignment`, same shape. -/
theorem complete_assignments_shape (st : Store) (orc : Oracle)
    (now aid wid : Nat) (notes : String) (mats photos : List String) :
    (CompleteAssignment st orc now aid wid notes mats photos).store.assignments =
      st.assignments ∨
    ∃ a, findAssoc aid st.assignments = some a ∧
      a.status = AssignmentStatus.inProgress ∧
      (CompleteAssignment st orc now aid wid notes mats photos).store.assignments =
        setAssoc aid (completeUpdated now a) st.assignments := by
  unfold CompleteAssignment
  cases hl : findAssoc aid st.assignments with
  | none => exact Or.inl rfl
  | some a =>
    by_cases hw : a.workerID = wid
    · subst hw
      by_cases hs : a.status = AssignmentStatus.inProgress
      · cases ha : orc.assignmentUpdateFails with
        | true => left; simp [hs, ha]
        | false =>
          right
          refine ⟨a, rfl, hs, ?_⟩
          cases hb : findAssoc a.bookingID st.bookings with
          | none => simp [hs, ha, hb, completeUpdated]
          | some b =>
            cases hbu : orc.bookingUpdateFails with
            | true => simp [hs, ha, hb, hbu, completeUpdated]
            | false =>
              cases hwk : findAssoc a.workerID st.workers with
              | none => simp [hs, ha, hb, hbu, hwk, completeUpdated]
              | some w =>
                cases hsi : orc.statsIncrementFails with
                | true =>
                  simp [hs, ha, hb, hbu, hwk, hsi, completeUpdated]
                | false =>
                  simp [hs, ha, hb, hbu, hwk, hsi, completeUpdated]
      · left; simp [hs]
    · left; simp [hw]

/-- C1: the claim demands that the Assignment and Booking writes of one
operation commit as one atomic unit, so that an operation that returns an
error leaves neither write behind. The source instead performs two
sequential unguarded writes: evaluated at a concrete `assigned` assignment
whose booking update fails, `AcceptAssignment` reports failure, yet the
accepted assignment record survives in the store while the booking is
still `pending` — the two aggregates diverge, which is the defect §9 of
the spec flags. -/
theorem C1_accept_partial_commit_on_booking_failure :
    (AcceptAssignment exStore bookingFailOracle 100 1 7 "").ret =
      Except.error SvcError.persistence ∧
    findAssoc 1
        (AcceptAssignment exStore bookingFailOracle 100 1 7 "").store.assignments =
      some (acceptUpdated 100 "" exAssignment) ∧
    (acceptUpdated 100 "" exAssignment).status = AssignmentStatus.accepted ∧
    findAssoc 3
        (AcceptAssignment exStore bookingFailOracle 100 1 7 "").store.bookings =
      some exBooking ∧
    exBooking.status = BookingStatus.pending :=
  ⟨rfl, rfl, rfl, rfl, rfl⟩

/-- C2: status transitions follow exactly the §4.1 table. For an owned
assignment, each of the four mutations in any status other than its table
precondition returns the invalid-state error with the whole store (both
Assignment and Booking) unchanged and no side effects; in the table status,
with both writes succeeding, the operation returns the table's assignment
mutation and commits the table's booking mutation. -/
theorem C2_transition_table (st : Store) (orc : Oracle) (now aid wid : Nat)
    (notes reason : String) (mats photos : List String)
    (a : WorkerAssignment)
    (hl : findAssoc aid st.assignments = some a) (hw : a.workerID = wid) :
    ((a.status ≠ AssignmentStatus.assigned →
        AcceptAssignment st orc now aid wid notes =
          ⟨Except.error SvcError.invalidState, st, []⟩) ∧
     ∀ b, a.status = AssignmentStatus.assigned →
       orc.assignmentUpdateFails = false →
       findAssoc a.bookingID st.bookings = some b →
       orc.bookingUpdateFails = false →
       (AcceptAssignment st orc now aid wid notes).ret =
         Except.ok (acceptUpdated now notes a) ∧
       (acceptUpdated now notes a).status = AssignmentStatus.accepted ∧
       findAssoc a.bookingID
           (AcceptAssignment st orc now aid wid notes).store.bookings =
         some (confirmedBooking b) ∧
       (confirmedBooking b).status = BookingStatus.confirmed) ∧
    ((a.status ≠ AssignmentStatus.assigned →
        RejectAssignment st orc now aid wid reason notes =
          ⟨Except.error SvcError.invalidState, st, []⟩) ∧
     ∀ b, a.status = AssignmentStatus.assigned →
       orc.assignmentUpdateFails = false →
       findAssoc a.bookingID st.bookings = some b →
       orc.bookingUpdateFails = false →
       (RejectAssignment st orc now aid wid reason notes).ret =
         Except.ok (rejectUpdated now reason notes a) ∧
       (rejectUpdated now reason notes a).status = AssignmentStatus.rejected ∧
       findAssoc a.bookingID
           (RejectAssignment st orc now aid wid reason notes).store.bookings =
         some (confirmedBooking b) ∧
       (confirmedBooking b).status = BookingStatus.confirmed) ∧
    ((a.status ≠ AssignmentStatus.accepted →
        StartAssignment st orc now aid wid notes =
          ⟨Except.error SvcError.invalidState, st, []⟩) ∧
     ∀ b, a.status = AssignmentStatus.accepted →
       orc.assignmentUpdateFails = false →
       findAssoc a.bookingID st.bookings = some b →
       orc.bookingUpdateFails = false →
       (StartAssignment st orc now aid wid notes).ret =
         Except.ok (startUpdated now a) ∧
       (startUpdated now a).status = AssignmentStatus.inProgress ∧
       findAssoc a.bookingID
           (StartAssignment st orc now aid wid notes).store.bookings =
         some (startedBooking now b) ∧
       (startedBooking now b).status = BookingStatus.inProgress) ∧
    ((a.status ≠ AssignmentStatus.inProgress →
        CompleteAssignment st orc now aid wid notes mats photos =
          ⟨Except.error SvcError.invalidState, st, []⟩) ∧
     ∀ b, a.status = AssignmentStatus.inProgress →
       orc.assignmentUpdateFails = false →
       findAssoc a.bookingID st.bookings = some b →
       orc.bookingUpdateFails = false →
       (CompleteAssignment st orc now aid wid notes mats photos).ret =
         Except.ok (completeUpdated now a) ∧
       (completeUpdated now a).status = AssignmentStatus.completed ∧
       findAssoc a.bookingID
           (CompleteAssignment st orc now aid wid notes mats photos).store.bookings =
         some (completedBooking now b) ∧
       (completedBooking now b).status = BookingStatus.completed) := by
  refine ⟨⟨?_, ?_⟩, ⟨?_, ?_⟩, ⟨?_, ?_⟩, ⟨?_, ?_⟩⟩
  · intro hs
    exact accept_invalidState st orc now aid wid notes a hl hw hs
  · intro b hs ha hb hbu
    rw [accept_success st orc now aid wid notes a b hl hw hs ha hb hbu]
    exact ⟨rfl, rfl, findAssoc_setAssoc_self _ _ _, rfl⟩
  · intro hs
    exact reject_invalidState st orc now aid wid reason notes a hl hw hs
  · intro b hs ha hb hbu
    rw [reject_success st orc now aid wid reason notes a b hl hw hs ha hb hbu]
    exact ⟨rfl, rfl, findAssoc_setAssoc_self _ _ _, rfl⟩
  · intro hs
    exact start_invalidState st orc now aid wid notes a hl hw hs
  · intro b hs ha hb hbu
    rw [start_success st orc now aid wid notes a b hl hw hs ha hb hbu]
    exact ⟨rfl, rfl, findAssoc_setAssoc_self _ _ _, rfl⟩
  · intro hs
    exact complete_invalidState st orc now aid wid notes mats photos a hl hw hs
  · intro b hs ha hb hbu
    obtain ⟨h1, h2, h3⟩ :=
      complete_core st orc now aid wid notes mats photos a b hl hw hs ha hb hbu
    refine ⟨h1, rfl, ?_, rfl⟩
    rw [h3]
    exact findAssoc_setAssoc_self _ _ _

/-- Witness for C2 at the concrete store: Accept succeeds from `assigned`
with the booking confirmed, while Start from `assigned` is rejected with
the invalid-state error and an untouched store. -/
theorem C2_transition_table_witness :
    findAssoc 1 exStore.assignments = some exAssignment ∧
    exAssignment.workerID = 7 ∧
    (AcceptAssignment exStore benignOracle 100 1 7 "").ret =
      Except.ok (acceptUpdated 100 "" exAssignment) ∧
    StartAssignment exStore benignOracle 100 1 7 "" =
      ⟨Except.error SvcError.invalidState, exStore, []⟩ :=
  ⟨rfl, rfl,
   ((C2_transition_table exStore benignOracle 100 1 7 "" "" [] []
       exAssignment rfl rfl).1.2 exBooking rfl rfl rfl rfl).1,
   (C2_transition_table exStore benignOracle 100 1 7 "" "" [] []
       exAssignment rfl rfl).2.2.1.1 (by decide)⟩

/-- C3: on every operation, including the single lookup, a caller whose
worker id differs from the assignment's owner receives the bare
unauthorized error — independently of the assignment's current status,
since the ownership check runs before the state check — and the store is
left completely unchanged with no side effects dispatched; the error value
carries no further information about the assignment. -/
theorem C3_ownership_precedes_state (st : Store) (orc : Oracle)
    (now aid wid : Nat) (notes reason : String) (mats photos : List String)
    (a : WorkerAssignment)
    (hl : findAssoc aid st.assignments = some a) (hw : a.workerID ≠ wid) :
    AcceptAssignment st orc now aid wid notes =
      ⟨Except.error SvcError.unauthorized, st, []⟩ ∧
    RejectAssignment st orc now aid wid reason notes =
      ⟨Except.error SvcError.unauthorized, st, []⟩ ∧
    StartAssignment st orc now aid wid notes =
      ⟨Except.error SvcError.unauthorized, st, []⟩ ∧
    CompleteAssignment st orc now aid wid notes mats photos =
      ⟨Except.error SvcError.unauthorized, st, []⟩ ∧
    GetWorkerAssignment st aid wid = Except.error SvcError.unauthorized :=
  ⟨accept_unauthorized st orc now aid wid notes a hl hw,
   reject_unauthorized st orc now aid wid reason notes a hl hw,
   start_unauthorized st orc now aid wid notes a hl hw,
   complete_unauthorized st orc now aid wid notes mats photos a hl hw,
   get_unauthorized st aid wid a hl hw⟩

/-- Witness for C3: worker 8 calling on worker 7's assignment is turned
away unauthorized on Accept and on Get, with the store untouched. -/
theorem C3_ownership_precedes_state_witness :
    exAssignment.workerID ≠ 8 ∧
    AcceptAssignment exStore benignOracle 100 1 8 "" =
      ⟨Except.error SvcError.unauthorized, exStore, []⟩ ∧
    GetWorkerAssignment exStore 1 8 = Except.error SvcError.unauthorized :=
  ⟨by decide,
   (C3_ownership_precedes_state exStore benignOracle 100 1 8 "" "" [] []
      exAssignment rfl (by decide)).1,
   (C3_ownership_precedes_state exStore benignOracle 100 1 8 "" "" [] []
      exAssignment rfl (by decide)).2.2.2.2⟩

/-- C4: on a successful Complete with the worker row found and the
increment applied, the earnings passed to the worker-statistics increment
are the booking's quote amount when present, else the service's price when
present, else 0 — and the stored statistics grow by exactly one job and
exactly that amount. -/
theorem C4_completion_earnings (st : Store) (orc : Oracle) (now aid wid : Nat)
    (notes : String) (mats photos : List String)
    (a : WorkerAssignment) (b : BookingModel) (w : WorkerRec)
    (hl : findAssoc aid st.assignments = some a) (hw : a.workerID = wid)
    (hs : a.status = AssignmentStatus.inProgress)
    (ha : orc.assignmentUpdateFails = false)
    (hb : findAssoc a.bookingID st.bookings = some b)
    (hbu : orc.bookingUpdateFails = false)
    (hwk : findAssoc a.workerID st.workers = some w)
    (hsi : orc.statsIncrementFails = false) :
    (∀ q, b.quoteAmount = some q →
       SideEffect.statsIncrement w.id q true ∈
         (CompleteAssignment st orc now aid wid notes mats photos).effects ∧
       findAssoc w.id
           (CompleteAssignment st orc now aid wid notes mats photos).store.stats =
         some { completedJobs :=
                  ((findAssoc w.id st.stats).getD ⟨0, 0⟩).completedJobs + 1
                totalEarnings :=
                  ((findAssoc w.id st.stats).getD ⟨0, 0⟩).totalEarnings + q }) ∧
    (∀ p, b.quoteAmount = none → b.service.price = some p →
       SideEffect.statsIncrement w.id p true ∈
         (CompleteAssignment st orc now aid wid notes mats photos).effects ∧
       findAssoc w.id
           (CompleteAssignment st orc now aid wid notes mats photos).store.stats =
         some { completedJobs :=
                  ((findAssoc w.id st.stats).getD ⟨0, 0⟩).completedJobs + 1
                totalEarnings :=
                  ((findAssoc w.id st.stats).getD ⟨0, 0⟩).totalEarnings + p }) ∧
    (b.quoteAmount = none → b.service.price = none →
       SideEffect.statsIncrement w.id 0 true ∈
         (CompleteAssignment st orc now aid wid notes mats photos).effects ∧
       findAssoc w.id
           (CompleteAssignment st orc now aid wid notes mats photos).store.stats =
         some { completedJobs :=
                  ((findAssoc w.id st.stats).getD ⟨0, 0⟩).completedJobs + 1
                totalEarnings :=
                  ((findAssoc w.id st.stats).getD ⟨0, 0⟩).totalEarnings + 0 }) := by
  rw [complete_success st orc now aid wid notes mats photos a b w
        hl hw hs ha hb hbu hwk hsi]
  refine ⟨?_, ?_, ?_⟩
  · intro q hq
    have hce : completionEarnings b = q := by
      simp [completionEarnings, hq]
    rw [hce]
    exact ⟨by simp, findAssoc_setAssoc_self _ _ _⟩
  · intro p hq hp
    have hce : completionEarnings b = p := by
      simp [completionEarnings, hq, hp]
    rw [hce]
    exact ⟨by simp, findAssoc_setAssoc_self _ _ _⟩
  · intro hq hp
    have hce : completionEarnings b = 0 := by
      simp [completionEarnings, hq, hp]
    rw [hce]
    exact ⟨by simp, findAssoc_setAssoc_self _ _ _⟩

/-- Witness for C4: completing the in-progress assignment whose booking
carries a 120 quote increments worker 40's statistics from 4 jobs / 100
earned to 5 jobs / 220 earned, with the increment effect carrying exactly
120. -/
theorem C4_completion_earnings_witness :
    exBookingQuote.quoteAmount = some 120 ∧
    SideEffect.statsIncrement 40 120 true ∈
      (CompleteAssignment exStoreInProgress benignOracle 38820 1 7 "" [] []).effects ∧
    findAssoc 40
        (CompleteAssignment exStoreInProgress benignOracle 38820 1 7 "" [] []).store.stats =
      some { completedJobs := 5, totalEarnings := 220 } :=
  ⟨rfl,
   ((C4_completion_earnings exStoreInProgress benignOracle 38820 1 7 "" [] []
       exAssignmentInProgress exBookingQuote exWorker
       rfl rfl rfl rfl rfl rfl rfl rfl).1 120 rfl).1,
   (((C4_completion_earnings exStoreInProgress benignOracle 38820 1 7 "" [] []
       exAssignmentInProgress exBookingQuote exWorker
       rfl rfl rfl rfl rfl rfl rfl rfl).1 120 rfl).2).trans
     (by norm_num [exWorker, exStoreInProgress, findAssoc])⟩

/-- C5: a successful Complete writes the booking back with status
completed, actual end time `now`, and actual duration the floor of the
minutes elapsed since the booking's actual start time. -/
theorem C5_actual_duration_floor (st : Store) (orc : Oracle)
    (now aid wid : Nat) (notes : String) (mats photos : List String)
    (a : WorkerAssignment) (b : BookingModel) (s : Nat)
    (hl : findAssoc aid st.assignments = some a) (hw : a.workerID = wid)
    (hs : a.status = AssignmentStatus.inProgress)
    (ha : orc.assignmentUpdateFails = false)
    (hb : findAssoc a.bookingID st.bookings = some b)
    (hbu : orc.bookingUpdateFails = false)
    (hstart : b.actualStartTime = some s) (_hle : s ≤ now) :
    findAssoc a.bookingID
        (CompleteAssignment st orc now aid wid notes mats photos).store.bookings =
      some (completedBooking now b) ∧
    (completedBooking now b).actualDurationMinutes = some ((now - s) / 60) ∧
    (completedBooking now b).actualEndTime = some now ∧
    (completedBooking now b).status = BookingStatus.completed := by
  obtain ⟨h1, h2, h3⟩ :=
    complete_core st orc now aid wid notes mats photos a b hl hw hs ha hb hbu
  refine ⟨?_, ?_, rfl, rfl⟩
  · rw [h3]
    exact findAssoc_setAssoc_self _ _ _
  · simp [completedBooking, hstart]

/-- Witness for C5: start at 10:00 (36000 s), completion at 10:47
(38820 s) — the stored duration is exactly 47 minutes. -/
theorem C5_actual_duration_floor_witness :
    exBookingQuote.actualStartTime = some 36000 ∧
    (36000 : Nat) ≤ 38820 ∧
    (completedBooking 38820 exBookingQuote).actualDurationMinutes = some 47 ∧
    findAssoc 3
        (CompleteAssignment exStoreInProgress benignOracle 38820 1 7 "" [] []).store.bookings =
      some (completedBooking 38820 exBookingQuote) :=
  ⟨rfl, by decide,
   (C5_actual_duration_floor exStoreInProgress benignOracle 38820 1 7 "" [] []
      exAssignmentInProgress exBookingQuote 36000
      rfl rfl rfl rfl rfl rfl rfl (by decide)).2.1,
   (C5_actual_duration_floor exStoreInProgress benignOracle 38820 1 7 "" [] []
      exAssignmentInProgress exBookingQuote 36000
      rfl rfl rfl rfl rfl rfl rfl (by decide)).1⟩

/-- C6: the privacy projection is a pure total function whose output does
not depend on the booking owner's phone number in any way — projecting two
assignments that differ only in that phone value yields identical
responses — and whose nested subscription and notification-settings slots
are always the simplified `nil` placeholder. -/
theorem C6_privacy_projection (a : WorkerAssignment) (p : String) :
    convertToPrivacyProtectedResponse (setBookingUserPhone a p) =
      convertToPrivacyProtectedResponse a ∧
    (convertToPrivacyProtectedResponse a).booking.user.subscription = none ∧
    (convertToPrivacyProtectedResponse a).booking.user.notificationSettings =
      none :=
  ⟨rfl, rfl, rfl⟩

/-- C7: with the two repository writes succeeding, every operation returns
the updated assignment and keeps both committed records in the store, for
an arbitrary oracle — that is, regardless of whether the chat room, call
masking, location tracking, notification, or worker-statistics ports
fail. No side-effect failure is surfaced and no committed write is rolled
back. -/
theorem C7_side_effect_failures_invisible (st : Store) (orc : Oracle)
    (now aid wid : Nat) (notes reason : String) (mats photos : List String)
    (a : WorkerAssignment) (b : BookingModel)
    (hl : findAssoc aid st.assignments = some a) (hw : a.workerID = wid)
    (ha : orc.assignmentUpdateFails = false)
    (hb : findAssoc a.bookingID st.bookings = some b)
    (hbu : orc.bookingUpdateFails = false) :
    (a.status = AssignmentStatus.assigned →
       (AcceptAssignment st orc now aid wid notes).ret =
         Except.ok (acceptUpdated now notes a) ∧
       findAssoc aid
           (AcceptAssignment st orc now aid wid notes).store.assignments =
         some (acceptUpdated now notes a) ∧
       findAssoc a.bookingID
           (AcceptAssignment st orc now aid wid notes).store.bookings =
         some (confirmedBooking b)) ∧
    (a.status = AssignmentStatus.assigned →
       (RejectAssignment st orc now aid wid reason notes).ret =
         Except.ok (rejectUpdated now reason notes a) ∧
       findAssoc aid
           (RejectAssignment st orc now aid wid reason notes).store.assignments =
         some (rejectUpdated now reason notes a) ∧
       findAssoc a.bookingID
           (RejectAssignment st orc now aid wid reason notes).store.bookings =
         some (confirmedBooking b)) ∧
    (a.status = AssignmentStatus.accepted →
       (StartAssignment st orc now aid wid notes).ret =
         Except.ok (startUpdated now a) ∧
       findAssoc aid
           (StartAssignment st orc now aid wid notes).store.assignments =
         some (startUpdated now a) ∧
       findAssoc a.bookingID
           (StartAssignment st orc now aid wid notes).store.bookings =
         some (startedBooking now b)) ∧
    (a.status = AssignmentStatus.inProgress →
       (CompleteAssignment st orc now aid wid notes mats photos).ret =
         Except.ok (completeUpdated now a) ∧
       findAssoc aid
           (CompleteAssignment st orc now aid wid notes mats photos).store.assignments =
         some (completeUpdated now a) ∧
       findAssoc a.bookingID
           (CompleteAssignment st orc now aid wid notes mats photos).store.bookings =
         some (completedBooking now b)) := by
  refine ⟨?_, ?_, ?_, ?_⟩
  · intro hs
    rw [accept_success st orc now aid wid notes a b hl hw hs ha hb hbu]
    exact ⟨rfl, findAssoc_setAssoc_self _ _ _, findAssoc_setAssoc_self _ _ _⟩
  · intro hs
    rw [reject_success st orc now aid wid reason notes a b hl hw hs ha hb hbu]
    exact ⟨rfl, findAssoc_setAssoc_self _ _ _, findAssoc_setAssoc_self _ _ _⟩
  · intro hs
    rw [start_success st orc now aid wid notes a b hl hw hs ha hb hbu]
    exact ⟨rfl, findAssoc_setAssoc_self _ _ _, findAssoc_setAssoc_self _ _ _⟩
  · intro hs
    obtain ⟨h1, h2, h3⟩ :=
      complete_core st orc now aid wid notes mats photos a b hl hw hs ha hb hbu
    refine ⟨h1, ?_, ?_⟩
    · rw [h2]
      exact findAssoc_setAssoc_self _ _ _
    · rw [h3]
      exact findAssoc_setAssoc_self _ _ _

/-- Witness for C7: on the oracle where every side-effect port fails but
the repository writes succeed, Accept still returns the accepted
assignment. -/
theorem C7_side_effect_failures_invisible_witness :
    sideFailOracle.chatCreateFails = true ∧
    sideFailOracle.statsIncrementFails = true ∧
    (AcceptAssignment exStore sideFailOracle 100 1 7 "").ret =
      Except.ok (acceptUpdated 100 "" exAssignment) :=
  ⟨rfl, rfl,
   ((C7_side_effect_failures_invisible exStore sideFailOracle 100 1 7 "" ""
       [] [] exAssignment exBooking rfl rfl rfl rfl rfl).1 rfl).1⟩

/-- C8 (counterexample): the bare §3 timestamp invariant is not preserved
by every operation on every assignment satisfying it. The concrete
assignment below is `assigned` with a stray `rejectedAt` already recorded —
it satisfies the timestamp invariant — yet Accept succeeds (the code
checks only the status) and the result has both `acceptedAt` and
`rejectedAt` set, violating the invariant. -/
theorem C8_timestamp_only_not_preserved :
    timestampInv exAssignmentGhostReject ∧
    exAssignmentGhostReject.status = AssignmentStatus.assigned ∧
    (AcceptAssignment exStoreGhost benignOracle 10 1 7 "").ret =
      Except.ok (acceptUpdated 10 "" exAssignmentGhostReject) ∧
    ¬ timestampInv (acceptUpdated 10 "" exAssignmentGhostReject) :=
  ⟨by decide, rfl, rfl, by decide⟩

/-- C8 (amended): every operation preserves the timestamp invariant
strengthened with the status-timestamp coupling (an `assigned` record has
neither decision timestamp, an `accepted` record has `acceptedAt`, an
`in_progress` record has `startedAt`): if every assignment row satisfies
the strengthened invariant before Accept, Reject, Start, or Complete, then
every row of the resulting store still does — on success and on every
failure path. -/
theorem C8_invariant_preserved (st : Store) (orc : Oracle)
    (now aid wid : Nat) (notes reason : String) (mats photos : List String)
    (hinv : allInv st.assignments) :
    allInv (AcceptAssignment st orc now aid wid notes).store.assignments ∧
    allInv (RejectAssignment st orc now aid wid reason notes).store.assignments ∧
    allInv (StartAssignment st orc now aid wid notes).store.assignments ∧
    allInv (CompleteAssignment st orc now aid wid notes mats photos).store.assignments := by
  rw [allInv_iff_mem] at hinv
  refine ⟨?_, ?_, ?_, ?_⟩
  · rw [allInv_iff_mem]
    rcases accept_assignments_shape st orc now aid wid notes with
      heq | ⟨a, hl, hs, heq⟩
    · rw [heq]; exact hinv
    · rw [heq]
      intro e he
      rcases mem_setAssoc he with h | h
      · rw [h]
        exact acceptUpdated_inv now notes a (hinv _ (findAssoc_mem hl)) hs
      · exact hinv e h
  · rw [allInv_iff_mem]
    rcases reject_assignments_shape st orc now aid wid reason notes with
      heq | ⟨a, hl, hs, heq⟩
    · rw [heq]; exact hinv
    · rw [heq]
      intro e he
      rcases mem_setAssoc he with h | h
      · rw [h]
        exact rejectUpdated_inv now reason notes a
          (hinv _ (findAssoc_mem hl)) hs
      · exact hinv e h
  · rw [allInv_iff_mem]
    rcases start_assignments_shape st orc now aid wid notes with
      heq | ⟨a, hl, hs, heq⟩
    · rw [heq]; exact hinv
    · rw [heq]
      intro e he
      rcases mem_setAssoc he with h | h
      · rw [h]
        exact startUpdated_inv now a (hinv _ (findAssoc_mem hl)) hs
      · exact hinv e h
  · rw [allInv_iff_mem]
    rcases complete_assignments_shape st orc now aid wid notes mats photos with
      heq | ⟨a, hl, hs, heq⟩
    · rw [heq]; exact hinv
    · rw [heq]
      intro e he
      rcases mem_setAssoc he with h | h
      · rw [h]
        exact completeUpdated_inv now a (hinv _ (findAssoc_mem hl)) hs
      · exact hinv e h

/-- Witness for the amended C8: the example store satisfies the
strengthened invariant and still does after Accept runs on it. -/
theorem C8_invariant_preserved_witness :
    allInv exStore.assignments ∧
    allInv (AcceptAssignment exStore benignOracle 100 1 7 "").store.assignments :=
  ⟨by decide,
   (C8_invariant_preserved exStore benignOracle 100 1 7 "" "" [] []
      (by decide)).1⟩

/-- C9: the claim demands that two concurrent Accept calls on the same
`assigned` assignment serialize so that exactly one succeeds. The source's
read-check-write is a plain `GetByID` followed by an unconditional
`Update` with no lock and no conditional update, so under the interleaving
in which both reads precede both writes, both calls pass the status check:
evaluated at the concrete store, both return the accepted assignment and
the chat-room-creation side effect fans out twice — the double-transition
race §9 of the spec flags. -/
theorem C9_concurrent_accepts_both_succeed :
    (interleavedAccepts exStore benignOracle 100 1 7 "").1 =
      Except.ok (acceptUpdated 100 "" exAssignment) ∧
    (interleavedAccepts exStore benignOracle 100 1 7 "").2.1 =
      Except.ok (acceptUpdated 100 "" exAssignment) ∧
    ((interleavedAccepts exStore benignOracle 100 1 7 "").2.2.2).count
        (SideEffect.chatRoomCreate 3 true) = 2 :=
  ⟨rfl, rfl, rfl⟩

/-- C10: a successful single lookup returns the stored assignment
verbatim — exactly the record in the repository, with no privacy
projection, so the booking owner's phone and full nested relations ride
along — whereas the list operation passes every returned element through
`convertToPrivacyProtectedResponse`. -/
theorem C10_get_verbatim_list_projected (st : Store) (aid wid : Nat)
    (a : WorkerAssignment) (assignments : List WorkerAssignment)
    (pg : Pagination)
    (h : GetWorkerAssignment st aid wid = Except.ok a) :
    findAssoc aid st.assignments = some a ∧
    GetWorkerAssignments (Except.ok (assignments, pg)) =
      Except.ok (assignments.map convertToPrivacyProtectedResponse, pg) :=
  ⟨get_ok_lookup h, rfl⟩

/-- Witness for C10: worker 7 fetches assignment 1 and receives the stored
record itself, booking owner's phone included; the list operation on the
same record returns only its projection. -/
theorem C10_get_verbatim_list_projected_witness :
    GetWorkerAssignment exStore 1 7 = Except.ok exAssignment ∧
    findAssoc 1 exStore.assignments = some exAssignment ∧
    exAssignment.booking.user.phone = "9876543210" ∧
    GetWorkerAssignments
        (Except.ok ([exAssignment],
          { page := 1, limit := 10, total := 1, totalPages := 1 })) =
      Except.ok ([convertToPrivacyProtectedResponse exAssignment],
        { page := 1, limit := 10, total := 1, totalPages := 1 }) :=
  ⟨rfl,
   (C10_get_verbatim_list_projected exStore 1 7 exAssignment [exAssignment]
      { page := 1, limit := 10, total := 1, totalPages := 1 } rfl).1,
   rfl,
   (C10_get_verbatim_list_projected exStore 1 7 exAssignment [exAssignment]
      { page := 1, limit := 10, total := 1, totalPages := 1 } rfl).2⟩

end TreesIndia
